import Mathlib

/-!
Verification of the reconciliation and dispatch logic of box.py, a
per-directory Docker sandbox runner.  The Python source is embedded
shallowly: the container runtime (docker) is modelled as an oracle
recording the result of each subprocess call, and every function of the
source becomes a Lean definition that returns the sequence of runtime
calls issued, the lines printed, and the process exit behaviour.
-/

namespace Box

/-! ## SHA-256 (used by get_container_name, box.py line 56)

The source calls hashlib.sha256(dir_path.encode()).hexdigest()[:12].
We implement SHA-256 (FIPS 180-4) over byte lists, with 32-bit words as
Nat values reduced mod 2^32. -/

/-- Modulus for 32-bit words. -/
def w32 : Nat := 4294967296

/-- Addition mod 2^32. -/
def add32 (x y : Nat) : Nat := (x + y) % w32

/-- Right rotation of a 32-bit word. -/
def rotr32 (n x : Nat) : Nat := ((x >>> n) ||| (x <<< (32 - n))) % w32

/-- SHA-256 small sigma 0. -/
def ssig0 (x : Nat) : Nat := rotr32 7 x ^^^ rotr32 18 x ^^^ (x >>> 3)

/-- SHA-256 small sigma 1. -/
def ssig1 (x : Nat) : Nat := rotr32 17 x ^^^ rotr32 19 x ^^^ (x >>> 10)

/-- SHA-256 big sigma 0. -/
def bsig0 (x : Nat) : Nat := rotr32 2 x ^^^ rotr32 13 x ^^^ rotr32 22 x

/-- SHA-256 big sigma 1. -/
def bsig1 (x : Nat) : Nat := rotr32 6 x ^^^ rotr32 11 x ^^^ rotr32 25 x

/-- SHA-256 choice function. -/
def chB (x y z : Nat) : Nat := (x &&& y) ^^^ ((x ^^^ 4294967295) &&& z)

/-- SHA-256 majority function. -/
def majB (x y z : Nat) : Nat := (x &&& y) ^^^ (x &&& z) ^^^ (y &&& z)

/-- Round constants of SHA-256. -/
def K256 : List Nat :=
  [1116352408, 1899447441, 3049323471, 3921009573, 961987163, 1508970993,
   2453635748, 2870763221, 3624381080, 310598401, 607225278, 1426881987,
   1925078388, 2162078206, 2614888103, 3248222580, 3835390401, 4022224774,
   264347078, 604807628, 770255983, 1249150122, 1555081692, 1996064986,
   2554220882, 2821834349, 2952996808, 3210313671, 3336571891, 3584528711,
   113926993, 338241895, 666307205, 773529912, 1294757372, 1396182291,
   1695183700, 1986661051, 2177026350, 2456956037, 2730485921, 2820302411,
   3259730800, 3345764771, 3516065817, 3600352804, 4094571909, 275423344,
   430227734, 506948616, 659060556, 883997877, 958139571, 1322822218,
   1537002063, 1747873779, 1955562222, 2024104815, 2227730452, 2361852424,
   2428436474, 2756734187, 3204031479, 3329325298]

/-- Big-endian 8-byte encoding of a length value. -/
def be8 (n : Nat) : List Nat :=
  [(n >>> 56) % 256, (n >>> 48) % 256, (n >>> 40) % 256, (n >>> 32) % 256,
   (n >>> 24) % 256, (n >>> 16) % 256, (n >>> 8) % 256, n % 256]

/-- Big-endian 4-byte encoding of a 32-bit word. -/
def be4 (x : Nat) : List Nat :=
  [(x >>> 24) % 256, (x >>> 16) % 256, (x >>> 8) % 256, x % 256]

/-- SHA-256 padding: append 0x80, zeros to 56 mod 64, then the 64-bit
bit length, big endian. -/
def padMessage (msg : List Nat) : List Nat :=
  let L := msg.length
  msg ++ 0x80 :: List.replicate ((64 - ((L + 9) % 64)) % 64) 0 ++ be8 (8 * L)

/-- Split a byte list into 64-byte blocks, with explicit fuel so the
recursion is structural; fuel at least the list length suffices. -/
def chunksN : Nat → List Nat → List (List Nat)
  | 0, _ => []
  | _ + 1, [] => []
  | n + 1, l@(_ :: _) => l.take 64 :: chunksN n (l.drop 64)

/-- Split a byte list into 64-byte blocks. -/
def chunks64 (l : List Nat) : List (List Nat) := chunksN l.length l

/-- Read the 32-bit big-endian word at word index i of a block. -/
def word32At (block : List Nat) (i : Nat) : Nat :=
  (block.getD (4 * i) 0) <<< 24 ||| (block.getD (4 * i + 1) 0) <<< 16 |||
  (block.getD (4 * i + 2) 0) <<< 8 ||| block.getD (4 * i + 3) 0

/-- Message schedule: expand a 64-byte block to 64 words. -/
def schedule (block : List Nat) : List Nat :=
  (List.range 48).foldl
    (fun w _ =>
      w ++ [add32 (add32 (ssig1 (w.getD (w.length - 2) 0)) (w.getD (w.length - 7) 0))
              (add32 (ssig0 (w.getD (w.length - 15) 0)) (w.getD (w.length - 16) 0))])
    ((List.range 16).map (word32At block))

/-- The eight SHA-256 working variables. -/
structure H8 where
  a : Nat
  b : Nat
  c : Nat
  d : Nat
  e : Nat
  f : Nat
  g : Nat
  h : Nat
deriving DecidableEq

/-- Initial hash value of SHA-256. -/
def H0 : H8 :=
  ⟨1779033703, 3144134277, 1013904242, 2773480762, 1359893119, 2600822924, 528734635, 1541459225⟩

/-- One SHA-256 compression of a 64-byte block. -/
def compress (st : H8) (block : List Nat) : H8 :=
  let ws := schedule block
  let fin := (List.range 64).foldl
    (fun s t =>
      let t1 := add32 (add32 s.h (add32 (bsig1 s.e) (chB s.e s.f s.g)))
                  (add32 (K256.getD t 0) (ws.getD t 0))
      let t2 := add32 (bsig0 s.a) (majB s.a s.b s.c)
      ⟨add32 t1 t2, s.a, s.b, s.c, add32 s.d t1, s.e, s.f, s.g⟩)
    st
  ⟨add32 st.a fin.a, add32 st.b fin.b, add32 st.c fin.c, add32 st.d fin.d,
   add32 st.e fin.e, add32 st.f fin.f, add32 st.g fin.g, add32 st.h fin.h⟩

/-- SHA-256 of a byte list, as the eight final words. -/
def sha256 (msg : List Nat) : H8 :=
  (chunks64 (padMessage msg)).foldl compress H0

/-- Digest bytes of a SHA-256 state, big endian. -/
def digestBytes (s : H8) : List Nat :=
  be4 s.a ++ be4 s.b ++ be4 s.c ++ be4 s.d ++ be4 s.e ++ be4 s.f ++ be4 s.g ++ be4 s.h

/-- Lowercase hexadecimal digit table. -/
def hexTable : List Char := "0123456789abcdef".data

/-- Lowercase hexadecimal digit of a value mod 16. -/
def hexDigit (n : Nat) : Char :=
  hexTable.get ⟨n % 16, Nat.mod_lt _ (by decide)⟩

/-- Hexadecimal characters of a byte list (two digits per byte). -/
def hexChars (bytes : List Nat) : List Char :=
  bytes.foldr (fun b acc => hexDigit (b / 16) :: hexDigit b :: acc) []

/-- UTF-8 encoding of one Unicode code point. -/
def utf8Bytes (c : Nat) : List Nat :=
  if c < 0x80 then [c]
  else if c < 0x800 then [0xc0 + c / 64, 0x80 + c % 64]
  else if c < 0x10000 then [0xe0 + c / 4096, 0x80 + (c / 64) % 64, 0x80 + c % 64]
  else [0xf0 + c / 262144, 0x80 + (c / 4096) % 64, 0x80 + (c / 64) % 64, 0x80 + c % 64]

/-- UTF-8 bytes of a string, matching Python str.encode(). -/
def strToBytes (s : String) : List Nat :=
  s.data.foldr (fun c acc => utf8Bytes c.toNat ++ acc) []

/-- Hexadecimal SHA-256 digest of a string, matching
hashlib.sha256(s.encode()).hexdigest(). -/
def hexdigestChars (s : String) : List Char :=
  hexChars (digestBytes (sha256 (strToBytes s)))

set_option maxRecDepth 10000

example : hexdigestChars "abc" =
    "ba7816bf8f01cfea414140de5dae2223b00361a396177a9cb410ff61f20015ad".data := by decide

example : String.mk (hexdigestChars "") =
    "e3b0c44298fc1c149afbf4c8996fb92427ae41e4649b934ca495991b7852b855" := rfl

/-! ## Data model

A configuration entry (box.py read_config, lines 36-50) holds a resolved
absolute directory and an image.  Directories are modelled as lists of
path segments, because Path.relative_to (line 203) and Path.resolve
operate segment-wise on normalized absolute paths. -/

/-- One normalized configuration entry: resolved absolute directory
(as path segments) and image reference. -/
structure Entry where
  dir : List String
  image : String
deriving DecidableEq

/-- Render path segments as the string form of a resolved absolute
path, as str(Path(...).resolve()) does. -/
def pathStr (p : List String) : String := "/" ++ String.intercalate "/" p

/-! ## Runtime oracle

The docker runtime is an external collaborator.  Each oracle field is
the outcome of the corresponding subprocess call, consumed at most once
per invocation. -/

/-- Outcome of the docker inspect status call in get_container_status
(lines 62-71): process result with stdout, a nonzero return code
(container does not exist), or a raised exception. -/
inductive StatusRes where
  | ok (stdout : String)
  | failCode
  | raised (msg : String)
deriving DecidableEq

/-- One entry of the Mounts array of docker inspect JSON (lines 87-91):
its Type, Source and Destination fields. -/
structure RawMount where
  type : String
  source : String
  dest : String
deriving DecidableEq

/-- Outcome of the full docker inspect call in get_container_info
(lines 80-86): parsed mounts and image, or any exception (nonzero exit
with check=True, JSON error, missing field). -/
inductive InfoRes where
  | ok (rawMounts : List RawMount) (image : String)
  | failed
deriving DecidableEq

/-- Outcome of the docker exec call in run_command_in_container (line
173): the return code of the docker exec process (which the runtime
contract equates with the in-container command exit code), a
KeyboardInterrupt in the host, or another exception. -/
inductive ExecRes where
  | completed (code : Int)
  | interrupted
  | raised (msg : String)
deriving DecidableEq

/-- Oracle for one invocation: the outcome of each runtime call the
program may issue.  For rm, run and docker-start, none means success
and some holds the stderr of the CalledProcessError. -/
structure Runtime where
  statusRes : StatusRes
  infoRes : InfoRes
  rmRes : Option String
  runRes : Option String
  startRes : Option String
  execRes : ExecRes
deriving DecidableEq

/-- Runtime calls the program can issue, with the arguments the source
passes to docker. -/
inductive Call where
  | inspectStatus (name : String)
  | inspectInfo (name : String)
  | rmForce (name : String)
  | runDetached (name : String) (volume : String) (image : String) (entry : List String)
  | dockerStart (name : String)
  | exec (tty : Bool) (workdir : Option String) (name : String) (argv : List String)
deriving DecidableEq

/-- One printed line, on stdout or stderr. -/
inductive Line where
  | out (s : String)
  | err (s : String)
deriving DecidableEq

/-- Result of running a piece of the program: runtime calls issued in
order, lines printed in order, and either a sys.exit code or a
returned value. -/
structure Eff (α : Type) where
  calls : List Call
  lines : List Line
  result : Except Int α

/-- The sys.exit code of a computation, if it exited. -/
def Eff.exitCode (e : Eff α) : Option Int :=
  match e.result with
  | .error c => some c
  | .ok _ => none

/-- Monadic unit for Eff. -/
def Eff.pure (a : α) : Eff α := ⟨[], [], .ok a⟩

/-- Monadic sequencing for Eff: a sys.exit aborts the continuation. -/
def Eff.bind (x : Eff α) (f : α → Eff β) : Eff β :=
  match x.result with
  | .error c => ⟨x.calls, x.lines, .error c⟩
  | .ok a => ⟨x.calls ++ (f a).calls, x.lines ++ (f a).lines, (f a).result⟩

instance : Monad Eff where
  pure := Eff.pure
  bind := Eff.bind

/-- Issue one runtime call. -/
def callE (c : Call) : Eff Unit := ⟨[c], [], .ok ()⟩

/-- Print one line to stdout. -/
def outL (s : String) : Eff Unit := ⟨[], [.out s], .ok ()⟩

/-- Print one line to stderr. -/
def errL (s : String) : Eff Unit := ⟨[], [.err s], .ok ()⟩

/-- Print several lines to stderr. -/
def errList (ss : List String) : Eff Unit := ⟨[], ss.map .err, .ok ()⟩

/-- Model of sys.exit(c). -/
def exitWith (c : Int) : Eff α := ⟨[], [], .error c⟩

/-! ## Python dicts

get_container_info builds mounts with a dict comprehension; the config
comparison in verify_container_config uses Python dict equality, which
is key-set plus per-key value equality, independent of insertion
order. -/

/-- Python dict assignment d[k] = v on an association list with unique
keys: overwrite in place if the key exists, else append. -/
def dictInsert (m : List (String × String)) (k v : String) : List (String × String) :=
  if m.any (fun kv => kv.1 == k) then m.map (fun kv => if kv.1 == k then (k, v) else kv)
  else m ++ [(k, v)]

/-- Python d.get(k): the value at a key, if present. -/
def lookupD (m : List (String × String)) (k : String) : Option String :=
  (m.find? (fun kv => kv.1 == k)).map (fun kv => kv.2)

/-- Python dict equality for association lists with unique keys:
each side's bindings all hold in the other, in any order. -/
def dictEq (a b : List (String × String)) : Bool :=
  a.all (fun kv => lookupD b kv.1 == some kv.2) &&
  b.all (fun kv => lookupD a kv.1 == some kv.2)

/-- Observed container configuration: bind-mount map (Source to
Destination) and image string. -/
structure Info where
  mounts : List (String × String)
  image : String
deriving DecidableEq

/-- The mounts dict of get_container_info (lines 87-91): Source to
Destination for each mount whose Type is bind. -/
def buildMounts (l : List RawMount) : List (String × String) :=
  l.foldl (fun m r => if r.type == "bind" then dictInsert m r.source r.dest else m) []

/-- Python repr of a string without escapes (paths and images). -/
def pyRepr (s : String) : String := "\x27" ++ s ++ "\x27"

/-- Python repr of a dict of strings, as printed by line 143-144. -/
def pyReprDict (m : List (String × String)) : String :=
  "\x7b" ++ String.intercalate ", " (m.map (fun kv => pyRepr kv.1 ++ ": " ++ pyRepr kv.2)) ++ "\x7d"

/-! ## The program (box.py) -/

/-- get_container_name (lines 53-57): the fixed tag box- followed by
the first 12 hex digits of the SHA-256 of the path string. -/
def get_container_name (dir_path : String) : String :=
  "box-" ++ String.mk ((hexdigestChars dir_path).take 12)

/-- Whitespace characters stripped by Python str.strip (the ASCII
ones; container status strings are ASCII). -/
def isSpaceB (c : Char) : Bool :=
  c == ' ' || c == '\t' || c == '\n' || c == '\r' || c == '\x0b' || c == '\x0c'

/-- Python str.strip(): drop leading and trailing whitespace. -/
def pyStrip (s : String) : String :=
  String.mk (((s.data.dropWhile isSpaceB).reverse.dropWhile isSpaceB).reverse)

/-- get_container_status (lines 60-74): docker inspect of the status;
stdout stripped on success, none when the container does not exist,
exit 1 if the subprocess call raises. -/
def get_container_status (rt : Runtime) (container_name : String) : Eff (Option String) := do
  callE (.inspectStatus container_name)
  match rt.statusRes with
  | .ok stdout => pure (some (pyStrip stdout))
  | .failCode => pure none
  | .raised msg => do
      errL ("Error checking container status: " ++ msg)
      exitWith 1

/-- The configuration get_container_info reports for a given oracle:
parsed bind mounts and image on success, empty mounts and empty image
when the deep inspect fails in any way (lines 94-95). -/
def observedInfo (rt : Runtime) : Info :=
  match rt.infoRes with
  | .ok rawMounts image => ⟨buildMounts rawMounts, image⟩
  | .failed => ⟨[], ""⟩

/-- get_container_info (lines 77-95): full docker inspect; never
exits, returns observedInfo. -/
def get_container_info (rt : Runtime) (container_name : String) : Eff Info := do
  callE (.inspectInfo container_name)
  pure (observedInfo rt)

/-- create_container (lines 98-120): detached docker run with one
read-write bind mount dir:dir, the image, and sleep infinity; exit 1
with the runtime stderr on failure. -/
def create_container (rt : Runtime) (container_name dir_path image : String) : Eff Unit := do
  outL ("Creating container \x27" ++ container_name ++ "\x27...")
  callE (.runDetached container_name (dir_path ++ ":" ++ dir_path ++ ":rw") image ["sleep", "infinity"])
  match rt.runRes with
  | none => outL ("Container \x27" ++ container_name ++ "\x27 created successfully.")
  | some stderr => do
      errL ("Error creating container: " ++ stderr)
      exitWith 1

/-- start_container (lines 123-133): docker start; exit 1 with the
runtime stderr on failure. -/
def start_container (rt : Runtime) (container_name : String) : Eff Unit := do
  outL ("Starting container \x27" ++ container_name ++ "\x27...")
  callE (.dockerStart container_name)
  match rt.startRes with
  | none => outL ("Container \x27" ++ container_name ++ "\x27 started.")
  | some stderr => do
      errL ("Error starting container: " ++ stderr)
      exitWith 1

/-- The comparison of verify_container_config line 141, negated as in
the source: the observed bind mounts equal (as Python dicts) the
singleton dir:dir expected map and the observed image equals the
configured image. -/
def configMatchesInfo (info : Info) (dir_path image : String) : Bool :=
  dictEq info.mounts [(dir_path, dir_path)] && (info.image == image)

/-- The line 141 comparison applied to what get_container_info
observes for a given oracle. -/
def configMatches (rt : Runtime) (dir_path image : String) : Bool :=
  configMatchesInfo (observedInfo rt) dir_path image

/-- verify_container_config (lines 136-154): compare observed config
with the expected one; on mismatch report, force-remove the container
(exit 1 if that fails) and return false; on match return true.  The
source tests the negated comparison first; the branches are swapped
here accordingly. -/
def verify_container_config (rt : Runtime) (container_name dir_path image : String) : Eff Bool := do
  let info ← get_container_info rt container_name
  let expected_mounts := [(dir_path, dir_path)]
  if configMatchesInfo info dir_path image then
    pure true
  else do
    outL "Container config doesn\x27t match current config."
    outL ("Expected mounts: " ++ pyReprDict expected_mounts ++ ", image: " ++ image)
    outL ("Current mounts: " ++ pyReprDict info.mounts ++ ", image: " ++ info.image)
    outL "Recreating container..."
    callE (.rmForce container_name)
    match rt.rmRes with
    | none => pure false
    | some stderr => do
        errL ("Error removing container: " ++ stderr)
        exitWith 1

/-- run_command_in_container (lines 157-179): docker exec -it with the
optional workdir and the arguments joined into one bash -c string;
exits with the exec return code, 130 on KeyboardInterrupt, 1 on any
other exception. -/
def run_command_in_container (rt : Runtime) (container_name : String)
    (command_args : List String) (workdir : Option String) : Eff Unit := do
  if command_args.isEmpty then do
    errL "Error: No command specified"
    exitWith 1
  else do
    match workdir with
    | some w => outL ("Working directory: " ++ w)
    | none => Eff.pure ()
    callE (.exec true workdir container_name ["bash", "-c", String.intercalate " " command_args])
    match rt.execRes with
    | .completed code => exitWith code
    | .interrupted => exitWith 130
    | .raised msg => do
        errL ("Error executing command: " ++ msg)
        exitWith 1

/-- The reconciliation block of main (lines 244-265), acting on the
status returned by get_container_status. -/
def ensure_container (rt : Runtime) (status : Option String)
    (container_name dir_path image : String) : Eff Unit :=
  match status with
  | none => create_container rt container_name dir_path image
  | some s =>
    if s == "exited" then do
      let ok ← verify_container_config rt container_name dir_path image
      if ok then start_container rt container_name
      else create_container rt container_name dir_path image
    else if s == "running" then do
      let ok ← verify_container_config rt container_name dir_path image
      if ok then outL ("Using existing container \x27" ++ container_name ++ "\x27")
      else create_container rt container_name dir_path image
    else do
      errL ("Error: Container in unexpected state: " ++ s)
      exitWith 1

/-- The kill branch of main (lines 223-237): force-remove the
container when it exists, report a no-op when it does not, exit 0. -/
def main_kill (rt : Runtime) (container_name dir_path : String) : Eff Unit := do
  outL ("Killing container \x27" ++ container_name ++ "\x27 for directory: " ++ dir_path)
  let status ← get_container_status rt container_name
  match status with
  | some _ => do
      callE (.rmForce container_name)
      match rt.rmRes with
      | none => outL ("Container \x27" ++ container_name ++ "\x27 removed.")
      | some stderr => do
          errL ("Error removing container: " ++ stderr)
          exitWith 1
  | none => outL ("Container \x27" ++ container_name ++ "\x27 does not exist.")
  exitWith 0

/-- main (lines 182-270).  The inputs are the normalized configuration
entries produced by read_config, the resolved current directory as
segments, and sys.argv without the program name (so the Python guard
len(sys.argv) < 2 is the emptiness of args). -/
def main (rt : Runtime) (config_entries : List Entry) (cwd : List String)
    (args : List String) : Eff Unit := do
  if args.isEmpty then do
    errL "Usage: box.py <command> [args...]"
    errL "Example: box.py ls -la"
    exitWith 1
  else do
  if config_entries.isEmpty then do
    errL "Error: No directories configured"
    exitWith 1
  else do
  match config_entries.find? (fun e => e.dir.isPrefixOf cwd) with
  | none => do
      errL ("Error: Current directory " ++ pathStr cwd ++ " is not in any configured directory")
      errL "Configured directories:"
      errList (config_entries.map (fun e => "  - " ++ pathStr e.dir ++ " (image: " ++ e.image ++ ")"))
      exitWith 1
  | some matched_entry => do
      let dir_path := pathStr matched_entry.dir
      let image := matched_entry.image
      let container_name := get_container_name dir_path
      if args.head? == some "kill" then
        main_kill rt container_name dir_path
      else do
        outL ("Using directory: " ++ dir_path)
        outL ("Using image: " ++ image)
        outL ("Container: " ++ container_name)
        let status ← get_container_status rt container_name
        ensure_container rt status container_name dir_path image
        outL ("Running: " ++ String.intercalate " " args)
        run_command_in_container rt container_name args (some (pathStr cwd))

/-! ## Derived reconciliation decision

The source has no explicit decision datatype; the decision table is the
branch structure of main lines 246-265 together with the comparison of
verify_container_config.  decideAction names that table so the claims
can speak about it, and the theorems tie main to it. -/

/-- The five reconciliation outcomes. -/
inductive Decision where
  | create
  | start
  | recreate
  | reuse
  | fatal (status : String)
deriving DecidableEq

/-- The decision table of main lines 246-265: none (inspect failed,
container absent) creates; exited starts on config match and recreates
otherwise; running reuses on config match and recreates otherwise; any
other status is fatal. -/
def decideAction (status : Option String) (matched : Bool) : Decision :=
  match status with
  | none => .create
  | some s =>
    if s == "exited" then (if matched then .start else .recreate)
    else if s == "running" then (if matched then .reuse else .recreate)
    else .fatal s

/-- Whether a call mutates runtime state (rm, run, start). -/
def isMutation : Call → Bool
  | .rmForce _ => true
  | .runDetached _ _ _ _ => true
  | .dockerStart _ => true
  | _ => false

/-- Whether a call is a detached run (container creation). -/
def isRun : Call → Bool
  | .runDetached _ _ _ _ => true
  | _ => false

/-- Whether a call is a docker exec. -/
def isExec : Call → Bool
  | .exec _ _ _ _ => true
  | _ => false

/-- The mutating calls of a computation, in order. -/
def mutationCalls (e : Eff α) : List Call := e.calls.filter isMutation

/-- The detached-run calls of a computation, in order. -/
def runCalls (e : Eff α) : List Call := e.calls.filter isRun

/-- The exec calls of a computation, in order. -/
def execCalls (e : Eff α) : List Call := e.calls.filter isExec

/-! ## Concrete inputs used by the witnesses -/

/-- A configuration entry for directory /a with image img. -/
def wEntry : Entry := ⟨["a"], "img"⟩

/-- A one-entry configuration. -/
def wEnts : List Entry := [wEntry]

/-- Oracle: container absent, docker run fails with stderr boom. -/
def wRtAbsent : Runtime := ⟨.failCode, .failed, none, some "boom", none, .completed 0⟩

/-- Oracle: container running with matching bind mount and image. -/
def wRtReuse : Runtime :=
  ⟨.ok "running\n", .ok [⟨"bind", "/a", "/a"⟩] "img", none, none, none, .completed 0⟩

/-- Oracle: container running, deep inspect fails, removal succeeds. -/
def wRtInspectFail : Runtime := ⟨.ok "running", .failed, none, none, none, .completed 0⟩

/-- A non-matching configuration entry for directory /b. -/
def wEntryB : Entry := ⟨["b"], "imgb"⟩

/-- A second entry for directory /a with a different image. -/
def wEntryA2 : Entry := ⟨["a"], "img2"⟩

/-! ## Claims -/

/-- C4: the Create action issues exactly one detached run call naming
the derived identity, with one read-write bind mount mapping the host
path to the identical container path, the declared image and a sleep
infinity entrypoint; if the run call fails the process exits non-zero
reporting the runtime stderr and the user command is never executed. -/
theorem claim4_create_on_absent (rt : Runtime) (entries : List Entry) (cwd : List String)
    (args : List String) (e : Entry)
    (hargs : args ≠ [])
    (hkill : args.head? ≠ some "kill")
    (hfind : entries.find? (fun en => en.dir.isPrefixOf cwd) = some e)
    (hstat : rt.statusRes = .failCode) :
    runCalls (main rt entries cwd args) =
      [.runDetached (get_container_name (pathStr e.dir))
        (pathStr e.dir ++ ":" ++ pathStr e.dir ++ ":rw") e.image ["sleep", "infinity"]] ∧
    decideAction none (configMatches rt (pathStr e.dir) e.image) = .create ∧
    (∀ se, rt.runRes = some se →
      (main rt entries cwd args).exitCode = some 1 ∧
      Line.err ("Error creating container: " ++ se) ∈ (main rt entries cwd args).lines ∧
      execCalls (main rt entries cwd args) = []) := by
  have hargs' : args.isEmpty = false := by cases args <;> simp_all
  have hkill' : (args.head? == some "kill") = false := by simp [hkill]
  have hne : entries ≠ [] := by intro h; subst h; simp at hfind
  refine ⟨?_, ?_, ?_⟩
  · cases hrun : rt.runRes <;> cases hex : rt.execRes <;>
      simp [main, hargs', hkill', hne, hfind, hstat, hrun, hex, runCalls, isRun,
        get_container_status, ensure_container, create_container, run_command_in_container,
        callE, outL, errL, exitWith, Eff.bind, Eff.pure, bind, pure, Eff.exitCode]
  · rfl
  · intro se hrun
    cases hex : rt.execRes <;>
      simp [main, hargs', hkill', hne, hfind, hstat, hrun, hex, execCalls, isExec,
        get_container_status, ensure_container, create_container, run_command_in_container,
        callE, outL, errL, exitWith, Eff.bind, Eff.pure, bind, pure, Eff.exitCode]

/-- Witness for C4 at a concrete input: single entry /a, current
directory /a, command ls, container absent, docker run failing with
stderr boom. -/
theorem claim4_create_on_absent_witness :
    (["ls"] : List String) ≠ [] ∧
    (["ls"] : List String).head? ≠ some "kill" ∧
    wEnts.find? (fun en => en.dir.isPrefixOf ["a"]) = some wEntry ∧
    wRtAbsent.statusRes = .failCode ∧
    runCalls (main wRtAbsent wEnts ["a"] ["ls"]) =
      [.runDetached (get_container_name (pathStr wEntry.dir))
        (pathStr wEntry.dir ++ ":" ++ pathStr wEntry.dir ++ ":rw") wEntry.image
        ["sleep", "infinity"]] ∧
    (main wRtAbsent wEnts ["a"] ["ls"]).exitCode = some 1 ∧
    Line.err ("Error creating container: " ++ "boom") ∈ (main wRtAbsent wEnts ["a"] ["ls"]).lines ∧
    execCalls (main wRtAbsent wEnts ["a"] ["ls"]) = [] := by
  have h := claim4_create_on_absent wRtAbsent wEnts ["a"] ["ls"] wEntry
    (by decide) (by decide) (by decide) rfl
  have hf := h.2.2 "boom" rfl
  exact ⟨by decide, by decide, by decide, rfl, h.1, hf.1, hf.2.1, hf.2.2⟩

/-- C3: when the deep inspect query fails, get_container_info does not
fail the invocation but reports empty mounts and an empty image; that
empty configuration never matches the expected spec, so an existing
container is removed and recreated rather than reused. -/
theorem claim3_inspect_failure_forces_recreate (rt : Runtime) (entries : List Entry)
    (cwd : List String) (args : List String) (e : Entry) (s0 : String)
    (hinfo : rt.infoRes = .failed)
    (hargs : args ≠ [])
    (hkill : args.head? ≠ some "kill")
    (hfind : entries.find? (fun en => en.dir.isPrefixOf cwd) = some e)
    (hstat : rt.statusRes = .ok s0)
    (hs : pyStrip s0 = "running" ∨ pyStrip s0 = "exited")
    (hrm : rt.rmRes = none) :
    (∀ n, get_container_info rt n = ⟨[.inspectInfo n], [], .ok ⟨[], ""⟩⟩) ∧
    (∀ d i, configMatches rt d i = false) ∧
    decideAction (some (pyStrip s0)) (configMatches rt (pathStr e.dir) e.image) = .recreate ∧
    mutationCalls (main rt entries cwd args) =
      [.rmForce (get_container_name (pathStr e.dir)),
       .runDetached (get_container_name (pathStr e.dir))
         (pathStr e.dir ++ ":" ++ pathStr e.dir ++ ":rw") e.image ["sleep", "infinity"]] := by
  have hargs' : args.isEmpty = false := by cases args <;> simp_all
  have hkill' : (args.head? == some "kill") = false := by simp [hkill]
  have hne : entries ≠ [] := by intro h; subst h; simp at hfind
  have hmatch : ∀ d i, configMatches rt d i = false := by
    intro d i
    simp [configMatches, configMatchesInfo, observedInfo, hinfo, dictEq, lookupD]
  refine ⟨?_, hmatch, ?_, ?_⟩
  · intro n
    simp [get_container_info, observedInfo, hinfo, callE, Eff.bind, Eff.pure, bind, pure]
  · rcases hs with hs | hs <;> simp [decideAction, hs, hmatch]
  · have hm : configMatchesInfo (observedInfo rt) (pathStr e.dir) e.image = false :=
      hmatch (pathStr e.dir) e.image
    rcases hs with hs | hs <;> cases hrun : rt.runRes <;> cases hex : rt.execRes <;>
      (simp [main, hargs', hkill', hne, hfind, hstat, hs, hm, hrm, hrun, hex,
        mutationCalls, isMutation, get_container_status, ensure_container,
        verify_container_config, get_container_info, create_container,
        run_command_in_container, callE, outL, errL, exitWith,
        Eff.bind, Eff.pure, bind, pure, Eff.exitCode]
       try rfl)

/-- Witness for C3 at a concrete input: running container whose deep
inspect fails; the tool removes and recreates it. -/
theorem claim3_inspect_failure_forces_recreate_witness :
    wRtInspectFail.infoRes = .failed ∧
    (["ls"] : List String) ≠ [] ∧
    (["ls"] : List String).head? ≠ some "kill" ∧
    wEnts.find? (fun en => en.dir.isPrefixOf ["a"]) = some wEntry ∧
    wRtInspectFail.statusRes = .ok "running" ∧
    (pyStrip "running" = "running" ∨ pyStrip "running" = "exited") ∧
    wRtInspectFail.rmRes = none ∧
    get_container_info wRtInspectFail "c" = ⟨[.inspectInfo "c"], [], .ok ⟨[], ""⟩⟩ ∧
    configMatches wRtInspectFail "/a" "img" = false ∧
    decideAction (some (pyStrip "running")) (configMatches wRtInspectFail (pathStr wEntry.dir) wEntry.image) = .recreate ∧
    mutationCalls (main wRtInspectFail wEnts ["a"] ["ls"]) =
      [.rmForce (get_container_name (pathStr wEntry.dir)),
       .runDetached (get_container_name (pathStr wEntry.dir))
         (pathStr wEntry.dir ++ ":" ++ pathStr wEntry.dir ++ ":rw") wEntry.image
         ["sleep", "infinity"]] := by
  have h := claim3_inspect_failure_forces_recreate wRtInspectFail wEnts ["a"] ["ls"] wEntry
    "running" rfl (by decide) (by decide) (by decide) rfl (Or.inl (by decide)) rfl
  exact ⟨rfl, by decide, by decide, by decide, rfl, Or.inl (by decide), rfl,
    h.1 "c", h.2.1 "/a" "img", h.2.2.1, h.2.2.2⟩

/-- C2: when drift is detected on an exited or running container, the
runtime mutations issued are exactly a forced remove of the stale
container followed by a detached run creating the fresh one, in that
order; and when the forced remove fails the process exits non-zero and
no create call is ever issued. -/
theorem claim2_recreate_remove_then_create (rt : Runtime) (entries : List Entry)
    (cwd : List String) (args : List String) (e : Entry) (s0 : String)
    (hargs : args ≠ [])
    (hkill : args.head? ≠ some "kill")
    (hfind : entries.find? (fun en => en.dir.isPrefixOf cwd) = some e)
    (hstat : rt.statusRes = .ok s0)
    (hs : pyStrip s0 = "exited" ∨ pyStrip s0 = "running")
    (hm : configMatches rt (pathStr e.dir) e.image = false) :
    decideAction (some (pyStrip s0)) (configMatches rt (pathStr e.dir) e.image) = .recreate ∧
    (rt.rmRes = none →
      mutationCalls (main rt entries cwd args) =
        [.rmForce (get_container_name (pathStr e.dir)),
         .runDetached (get_container_name (pathStr e.dir))
           (pathStr e.dir ++ ":" ++ pathStr e.dir ++ ":rw") e.image ["sleep", "infinity"]]) ∧
    (∀ se, rt.rmRes = some se →
      (main rt entries cwd args).exitCode = some 1 ∧
      mutationCalls (main rt entries cwd args) =
        [.rmForce (get_container_name (pathStr e.dir))] ∧
      runCalls (main rt entries cwd args) = []) := by
  have hargs' : args.isEmpty = false := by cases args <;> simp_all
  have hkill' : (args.head? == some "kill") = false := by simp [hkill]
  have hne : entries ≠ [] := by intro h; subst h; simp at hfind
  have hm' : configMatchesInfo (observedInfo rt) (pathStr e.dir) e.image = false := hm
  refine ⟨?_, ?_, ?_⟩
  · rcases hs with hs | hs <;> simp [decideAction, hs, hm]
  · intro hrm
    rcases hs with hs | hs <;> cases hrun : rt.runRes <;> cases hex : rt.execRes <;>
      (simp [main, hargs', hkill', hne, hfind, hstat, hs, hm', hrm, hrun, hex,
        mutationCalls, isMutation, get_container_status, ensure_container,
        verify_container_config, get_container_info, create_container,
        run_command_in_container, callE, outL, errL, exitWith,
        Eff.bind, Eff.pure, bind, pure, Eff.exitCode]
       try rfl)
  · intro se hrm
    rcases hs with hs | hs <;>
      (simp [main, hargs', hkill', hne, hfind, hstat, hs, hm', hrm,
        mutationCalls, runCalls, isMutation, isRun, get_container_status, ensure_container,
        verify_container_config, get_container_info, create_container,
        run_command_in_container, callE, outL, errL, exitWith,
        Eff.bind, Eff.pure, bind, pure, Eff.exitCode]
       try rfl)

/-- Witness for C2 at concrete inputs: a drifted exited container whose
removal succeeds (remove-then-create) and a drifted running container
whose removal fails (exit 1, no create). -/
theorem claim2_recreate_remove_then_create_witness :
    (["ls"] : List String) ≠ [] ∧
    wEnts.find? (fun en => en.dir.isPrefixOf ["a"]) = some wEntry ∧
    configMatches ⟨.ok "exited", .ok [] "other", none, none, none, .completed 0⟩ (pathStr wEntry.dir) wEntry.image = false ∧
    mutationCalls (main ⟨.ok "exited", .ok [] "other", none, none, none, .completed 0⟩ wEnts ["a"] ["ls"]) =
      [.rmForce (get_container_name (pathStr wEntry.dir)),
       .runDetached (get_container_name (pathStr wEntry.dir))
         (pathStr wEntry.dir ++ ":" ++ pathStr wEntry.dir ++ ":rw") wEntry.image ["sleep", "infinity"]] ∧
    (main ⟨.ok "running", .failed, some "rmboom", none, none, .completed 0⟩ wEnts ["a"] ["ls"]).exitCode = some 1 ∧
    mutationCalls (main ⟨.ok "running", .failed, some "rmboom", none, none, .completed 0⟩ wEnts ["a"] ["ls"]) =
      [.rmForce (get_container_name (pathStr wEntry.dir))] ∧
    runCalls (main ⟨.ok "running", .failed, some "rmboom", none, none, .completed 0⟩ wEnts ["a"] ["ls"]) = [] := by
  have hA := claim2_recreate_remove_then_create
    ⟨.ok "exited", .ok [] "other", none, none, none, .completed 0⟩ wEnts ["a"] ["ls"] wEntry
    "exited" (by decide) (by decide) (by decide) rfl (Or.inl (by decide)) (by decide)
  have hB := claim2_recreate_remove_then_create
    ⟨.ok "running", .failed, some "rmboom", none, none, .completed 0⟩ wEnts ["a"] ["ls"] wEntry
    "running" (by decide) (by decide) (by decide) rfl (Or.inr (by decide)) (by decide)
  have hB' := hB.2.2 "rmboom" rfl
  exact ⟨by decide, by decide, by decide, hA.2.1 rfl, hB'.1, hB'.2.1, hB'.2.2⟩

/-- C8: reconciliation of a running, configuration-matching container
is idempotent: each of two successive invocations observing that state
decides Reuse and issues zero mutation calls. -/
theorem claim8_reuse_idempotent (rt1 rt2 : Runtime) (entries : List Entry)
    (cwd : List String) (args : List String) (e : Entry) (s1 s2 : String)
    (hargs : args ≠ [])
    (hkill : args.head? ≠ some "kill")
    (hfind : entries.find? (fun en => en.dir.isPrefixOf cwd) = some e)
    (hst1 : rt1.statusRes = .ok s1) (hs1 : pyStrip s1 = "running")
    (hm1 : configMatches rt1 (pathStr e.dir) e.image = true)
    (hst2 : rt2.statusRes = .ok s2) (hs2 : pyStrip s2 = "running")
    (hm2 : configMatches rt2 (pathStr e.dir) e.image = true) :
    decideAction (some (pyStrip s1)) (configMatches rt1 (pathStr e.dir) e.image) = .reuse ∧
    decideAction (some (pyStrip s2)) (configMatches rt2 (pathStr e.dir) e.image) = .reuse ∧
    mutationCalls (main rt1 entries cwd args) = [] ∧
    mutationCalls (main rt2 entries cwd args) = [] := by
  have hargs' : args.isEmpty = false := by cases args <;> simp_all
  have hkill' : (args.head? == some "kill") = false := by simp [hkill]
  have hne : entries ≠ [] := by intro h; subst h; simp at hfind
  have key : ∀ (rt : Runtime) (s0 : String), rt.statusRes = .ok s0 → pyStrip s0 = "running" →
      configMatches rt (pathStr e.dir) e.image = true →
      mutationCalls (main rt entries cwd args) = [] := by
    intro rt s0 hstat hs hm
    have hm' : configMatchesInfo (observedInfo rt) (pathStr e.dir) e.image = true := hm
    cases hex : rt.execRes <;>
      (simp [main, hargs', hkill', hne, hfind, hstat, hs, hm', hex,
        mutationCalls, isMutation, get_container_status, ensure_container,
        verify_container_config, get_container_info, run_command_in_container,
        callE, outL, errL, exitWith, Eff.bind, Eff.pure, bind, pure, Eff.exitCode]
       try rfl)
  exact ⟨by simp [decideAction, hs1, hm1], by simp [decideAction, hs2, hm2],
    key rt1 s1 hst1 hs1 hm1, key rt2 s2 hst2 hs2 hm2⟩

/-- Witness for C8 at a concrete input: the same matching running
observation on both invocations. -/
theorem claim8_reuse_idempotent_witness :
    (["ls"] : List String) ≠ [] ∧
    (["ls"] : List String).head? ≠ some "kill" ∧
    wEnts.find? (fun en => en.dir.isPrefixOf ["a"]) = some wEntry ∧
    wRtReuse.statusRes = .ok "running\n" ∧
    pyStrip "running\n" = "running" ∧
    configMatches wRtReuse (pathStr wEntry.dir) wEntry.image = true ∧
    decideAction (some (pyStrip "running\n")) (configMatches wRtReuse (pathStr wEntry.dir) wEntry.image) = .reuse ∧
    mutationCalls (main wRtReuse wEnts ["a"] ["ls"]) = [] := by
  have h := claim8_reuse_idempotent wRtReuse wRtReuse wEnts ["a"] ["ls"] wEntry
    "running\n" "running\n" (by decide) (by decide) (by decide) rfl (by decide) (by decide)
    rfl (by decide) (by decide)
  exact ⟨by decide, by decide, by decide, rfl, by decide, by decide, h.1, h.2.2.2⟩

/-- C9: the kill subcommand is decisive: with no container present it
reports a no-op and exits 0 with no mutation; with a container present
it issues exactly one forced remove, never executes any command, and
exits 0 when removal succeeds. -/
theorem claim9_kill_decisive (rt : Runtime) (entries : List Entry) (cwd : List String)
    (args rest : List String) (e : Entry)
    (hargs : args = "kill" :: rest)
    (hfind : entries.find? (fun en => en.dir.isPrefixOf cwd) = some e) :
    (rt.statusRes = .failCode →
      (main rt entries cwd args).exitCode = some 0 ∧
      mutationCalls (main rt entries cwd args) = [] ∧
      execCalls (main rt entries cwd args) = [] ∧
      Line.out ("Container \x27" ++ get_container_name (pathStr e.dir) ++ "\x27 does not exist.")
        ∈ (main rt entries cwd args).lines) ∧
    (∀ s0, rt.statusRes = .ok s0 → rt.rmRes = none →
      (main rt entries cwd args).exitCode = some 0 ∧
      mutationCalls (main rt entries cwd args) =
        [.rmForce (get_container_name (pathStr e.dir))] ∧
      execCalls (main rt entries cwd args) = []) := by
  subst hargs
  have hne : entries ≠ [] := by intro h; subst h; simp at hfind
  constructor
  · intro hstat
    simp [main, main_kill, hne, hfind, hstat, mutationCalls, execCalls, isMutation, isExec,
      get_container_status, callE, outL, errL, exitWith,
      Eff.bind, Eff.pure, bind, pure, Eff.exitCode]
  · intro s0 hstat hrm
    simp [main, main_kill, hne, hfind, hstat, hrm, mutationCalls, execCalls, isMutation, isExec,
      get_container_status, callE, outL, errL, exitWith,
      Eff.bind, Eff.pure, bind, pure, Eff.exitCode]

/-- Witness for C9 at concrete inputs: kill with the container absent
(no-op, exit 0) and kill with a running container (one forced remove,
exit 0, no exec). -/
theorem claim9_kill_decisive_witness :
    wEnts.find? (fun en => en.dir.isPrefixOf ["a"]) = some wEntry ∧
    (main wRtAbsent wEnts ["a"] ["kill"]).exitCode = some 0 ∧
    mutationCalls (main wRtAbsent wEnts ["a"] ["kill"]) = [] ∧
    Line.out ("Container \x27" ++ get_container_name (pathStr wEntry.dir) ++ "\x27 does not exist.")
      ∈ (main wRtAbsent wEnts ["a"] ["kill"]).lines ∧
    (main wRtReuse wEnts ["a"] ["kill"]).exitCode = some 0 ∧
    mutationCalls (main wRtReuse wEnts ["a"] ["kill"]) =
      [.rmForce (get_container_name (pathStr wEntry.dir))] ∧
    execCalls (main wRtReuse wEnts ["a"] ["kill"]) = [] := by
  have hA := (claim9_kill_decisive wRtAbsent wEnts ["a"] ["kill"] [] wEntry rfl (by decide)).1 rfl
  have hB := (claim9_kill_decisive wRtReuse wEnts ["a"] ["kill"] [] wEntry rfl (by decide)).2
    "running\n" rfl rfl
  exact ⟨by decide, hA.1, hA.2.1, hA.2.2.2, hB.1, hB.2.1, hB.2.2⟩

/-- C6: the host process exits with the exit code of the dispatched
docker exec call, and with 130 when a keyboard interrupt arrives while
the command is dispatched; the same code propagates through main. -/
theorem claim6_exit_passthrough (rt : Runtime) (entries : List Entry) (cwd : List String)
    (args : List String) (e : Entry) (s0 n : String) (wd : Option String) (c : Int)
    (hargs : args ≠ []) :
    (rt.execRes = .completed c → (run_command_in_container rt n args wd).exitCode = some c) ∧
    (rt.execRes = .interrupted → (run_command_in_container rt n args wd).exitCode = some 130) ∧
    (args.head? ≠ some "kill" →
      entries.find? (fun en => en.dir.isPrefixOf cwd) = some e →
      rt.statusRes = .ok s0 → pyStrip s0 = "running" →
      configMatches rt (pathStr e.dir) e.image = true →
      rt.execRes = .completed c →
      (main rt entries cwd args).exitCode = some c) := by
  have hargs' : args.isEmpty = false := by cases args <;> simp_all
  refine ⟨?_, ?_, ?_⟩
  · intro hex
    cases wd <;>
      simp [run_command_in_container, hargs', hex, callE, outL, errL, exitWith,
        Eff.bind, Eff.pure, bind, pure, Eff.exitCode]
  · intro hex
    cases wd <;>
      simp [run_command_in_container, hargs', hex, callE, outL, errL, exitWith,
        Eff.bind, Eff.pure, bind, pure, Eff.exitCode]
  · intro hkill hfind hstat hs hm hex
    have hkill' : (args.head? == some "kill") = false := by simp [hkill]
    have hne : entries ≠ [] := by intro h; subst h; simp at hfind
    have hm' : configMatchesInfo (observedInfo rt) (pathStr e.dir) e.image = true := hm
    simp [main, hargs', hkill', hne, hfind, hstat, hs, hm', hex,
      get_container_status, ensure_container, verify_container_config, get_container_info,
      run_command_in_container, callE, outL, errL, exitWith,
      Eff.bind, Eff.pure, bind, pure, Eff.exitCode]

/-- Witness for C6 at a concrete input: a running matching container
and a command completing with exit code 130. -/
theorem claim6_exit_passthrough_witness :
    (["ls"] : List String) ≠ [] ∧
    ((⟨.ok "running", .ok [⟨"bind", "/a", "/a"⟩] "img", none, none, none, .completed 130⟩ : Runtime).execRes = .completed 130 →
      (run_command_in_container ⟨.ok "running", .ok [⟨"bind", "/a", "/a"⟩] "img", none, none, none, .completed 130⟩ "c" ["ls"] none).exitCode = some 130) ∧
    (main ⟨.ok "running", .ok [⟨"bind", "/a", "/a"⟩] "img", none, none, none, .completed 130⟩ wEnts ["a"] ["ls"]).exitCode = some 130 := by
  have h := claim6_exit_passthrough
    ⟨.ok "running", .ok [⟨"bind", "/a", "/a"⟩] "img", none, none, none, .completed 130⟩
    wEnts ["a"] ["ls"] wEntry "running" "c" none 130 (by decide)
  exact ⟨by decide, h.1, h.2.2 (by decide) (by decide) rfl (by decide) (by decide) rfl⟩

set_option maxHeartbeats 3200000 in
/-- C5: when the current location lies under a configured directory,
a configured spec containing it is selected and every exec call issued
passes the current location itself as the working directory; prefix
matching respects path segments (so /home/alice does not match
/home/alice2); and when no configured directory contains the current
location the invocation exits non-zero before any runtime call, with a
diagnostic listing every configured directory. -/
theorem claim5_directory_scoping (rt : Runtime) (entries : List Entry) (cwd : List String)
    (args : List String) :
    ((∃ e0 ∈ entries, e0.dir.isPrefixOf cwd = true) →
      ∃ e, entries.find? (fun en => en.dir.isPrefixOf cwd) = some e ∧ e ∈ entries ∧
        e.dir.isPrefixOf cwd = true ∧
        ∀ c ∈ (main rt entries cwd args).calls, isExec c = true →
          c = .exec true (some (pathStr cwd)) (get_container_name (pathStr e.dir))
                ["bash", "-c", String.intercalate " " args]) ∧
    ([Entry.mk ["home", "alice"] "img"].find?
      (fun en => en.dir.isPrefixOf ["home", "alice2"]) = none) ∧
    ((∀ e0 ∈ entries, e0.dir.isPrefixOf cwd = false) → args ≠ [] → entries ≠ [] →
      (main rt entries cwd args).exitCode = some 1 ∧
      (main rt entries cwd args).calls = [] ∧
      ∀ e0 ∈ entries,
        Line.err ("  - " ++ pathStr e0.dir ++ " (image: " ++ e0.image ++ ")")
          ∈ (main rt entries cwd args).lines) := by
  refine ⟨?_, by decide, ?_⟩
  · rintro ⟨e0, he0, hp0⟩
    have hsome : (entries.find? (fun en => en.dir.isPrefixOf cwd)).isSome :=
      List.find?_isSome.2 ⟨e0, he0, hp0⟩
    obtain ⟨e, hfind⟩ := Option.isSome_iff_exists.1 hsome
    have hmem : e ∈ entries := List.mem_of_find?_eq_some hfind
    have hpe : e.dir.isPrefixOf cwd = true := by
      have h := List.find?_some hfind
      simpa using h
    have hne : entries ≠ [] := by intro h; subst h; simp at hfind
    refine ⟨e, hfind, hmem, hpe, ?_⟩
    cases args with
    | nil =>
      simp [main, errL, exitWith, Eff.bind, Eff.pure, bind, pure]
    | cons a as =>
      have hargs' : (a :: as).isEmpty = false := rfl
      rcases eq_or_ne a "kill" with hk | hk
      · subst hk
        cases hst : rt.statusRes <;> cases hrm : rt.rmRes <;>
          simp [main, main_kill, hargs', hne, hfind, hst, hrm, isExec,
            get_container_status, callE, outL, errL, exitWith,
            Eff.bind, Eff.pure, bind, pure]
      · cases hst : rt.statusRes with
        | failCode =>
          cases hrun : rt.runRes <;> cases hex : rt.execRes <;>
            (simp [main, hargs', hne, hfind, hk, hst, hrun, hex, isExec,
              get_container_status, ensure_container, create_container,
              run_command_in_container, callE, outL, errL, exitWith,
              Eff.bind, Eff.pure, bind, pure]
             try rfl)
        | raised msg =>
          simp [main, hargs', hne, hfind, hk, hst, isExec,
            get_container_status, callE, outL, errL, exitWith,
            Eff.bind, Eff.pure, bind, pure]
        | ok s =>
          cases hsx : (pyStrip s == "exited") <;> cases hsr : (pyStrip s == "running") <;>
            cases hm : configMatchesInfo (observedInfo rt) (pathStr e.dir) e.image <;>
            cases hrm : rt.rmRes <;> cases hrun : rt.runRes <;>
            cases hstart : rt.startRes <;> cases hex : rt.execRes <;>
            (simp [main, hargs', hne, hfind, hk, hst, hsx, hsr, hm, hrm, hrun, hstart,
              hex, isExec, get_container_status, ensure_container, verify_container_config,
              get_container_info, create_container, start_container,
              run_command_in_container, callE, outL, errL, exitWith,
              Eff.bind, Eff.pure, bind, pure]
             try rfl)
  · intro hnone hargs hne
    have hargs' : args.isEmpty = false := by cases args <;> simp_all
    have hfind : entries.find? (fun en => en.dir.isPrefixOf cwd) = none :=
      List.find?_eq_none.2 (by intro x hx; simp [hnone x hx])
    refine ⟨?_, ?_, ?_⟩
    · simp [main, hargs', hne, hfind, errL, errList, exitWith, Eff.bind, Eff.pure,
        bind, pure, Eff.exitCode]
    · simp [main, hargs', hne, hfind, errL, errList, exitWith, Eff.bind, Eff.pure,
        bind, pure]
    · intro e0 he0
      simp [main, hargs', hne, hfind, errL, errList, exitWith, Eff.bind, Eff.pure,
        bind, pure]
      exact Or.inr (Or.inr ⟨e0, he0, rfl⟩)

/-- Python dict equality against the singleton expected map dir:dir
holds exactly when every observed binding is dir:dir and dir is bound
to dir; in particular it is independent of binding order. -/
theorem dictEq_singleton_iff (mts : List (String × String)) (d : String) :
    dictEq mts [(d, d)] = true ↔
      ((∀ kv ∈ mts, kv = (d, d)) ∧ lookupD mts d = some d) := by
  unfold dictEq
  rw [Bool.and_eq_true, List.all_eq_true, List.all_eq_true]
  constructor
  · rintro ⟨h1, h2⟩
    refine ⟨?_, ?_⟩
    · intro kv hkv
      have h := h1 kv hkv
      rw [beq_iff_eq] at h
      by_cases hk : kv.1 = d
      · have hl : lookupD [(d, d)] kv.1 = some d := by simp [lookupD, hk]
        rw [hl] at h
        obtain ⟨k1, k2⟩ := kv
        simp_all
      · have hd : (d == kv.1) = false := beq_eq_false_iff_ne.2 (Ne.symm hk)
        have hl : lookupD [(d, d)] kv.1 = none := by
          simp [lookupD, List.find?, hd]
        rw [hl] at h
        exact absurd h (by simp)
    · have h := h2 (d, d) (by simp)
      rw [beq_iff_eq] at h
      exact h
  · rintro ⟨h1, h2⟩
    refine ⟨?_, ?_⟩
    · intro kv hkv
      have hk := h1 kv hkv
      subst hk
      simp [lookupD]
    · intro kv hkv
      simp at hkv
      subst hkv
      simp [h2]

/-- C1: the reconciliation decision is exactly the documented table:
absent creates; exited with the observed bind-mount map equal, order
independently and over the entire expected set, to the expected map
and with an identical image starts, and otherwise recreates; running
with the same equality reuses with no runtime mutation, and otherwise
recreates; any other status is fatal with exit code 1, the status
named in the diagnostic, no further runtime call and no execution of
the user command. -/
theorem claim1_reconciliation_decision (rt : Runtime) (entries : List Entry)
    (cwd : List String) (args : List String) (e : Entry)
    (hargs : args ≠ [])
    (hkill : args.head? ≠ some "kill")
    (hfind : entries.find? (fun en => en.dir.isPrefixOf cwd) = some e) :
    (∀ mts d, dictEq mts [(d, d)] = true ↔
      ((∀ kv ∈ mts, kv = (d, d)) ∧ lookupD mts d = some d)) ∧
    (rt.statusRes = .failCode →
      decideAction none (configMatches rt (pathStr e.dir) e.image) = .create ∧
      mutationCalls (main rt entries cwd args) =
        [.runDetached (get_container_name (pathStr e.dir))
          (pathStr e.dir ++ ":" ++ pathStr e.dir ++ ":rw") e.image ["sleep", "infinity"]]) ∧
    (∀ s0, rt.statusRes = .ok s0 → pyStrip s0 = "exited" →
      (configMatches rt (pathStr e.dir) e.image = true →
        decideAction (some (pyStrip s0)) (configMatches rt (pathStr e.dir) e.image) = .start ∧
        mutationCalls (main rt entries cwd args) =
          [.dockerStart (get_container_name (pathStr e.dir))]) ∧
      (configMatches rt (pathStr e.dir) e.image = false →
        decideAction (some (pyStrip s0)) (configMatches rt (pathStr e.dir) e.image) = .recreate ∧
        (mutationCalls (main rt entries cwd args)).head? =
          some (.rmForce (get_container_name (pathStr e.dir))))) ∧
    (∀ s0, rt.statusRes = .ok s0 → pyStrip s0 = "running" →
      (configMatches rt (pathStr e.dir) e.image = true →
        decideAction (some (pyStrip s0)) (configMatches rt (pathStr e.dir) e.image) = .reuse ∧
        mutationCalls (main rt entries cwd args) = []) ∧
      (configMatches rt (pathStr e.dir) e.image = false →
        decideAction (some (pyStrip s0)) (configMatches rt (pathStr e.dir) e.image) = .recreate ∧
        (mutationCalls (main rt entries cwd args)).head? =
          some (.rmForce (get_container_name (pathStr e.dir))))) ∧
    (∀ s0, rt.statusRes = .ok s0 → pyStrip s0 ≠ "exited" → pyStrip s0 ≠ "running" →
      decideAction (some (pyStrip s0)) (configMatches rt (pathStr e.dir) e.image) =
        .fatal (pyStrip s0) ∧
      (main rt entries cwd args).exitCode = some 1 ∧
      Line.err ("Error: Container in unexpected state: " ++ pyStrip s0)
        ∈ (main rt entries cwd args).lines ∧
      (main rt entries cwd args).calls =
        [.inspectStatus (get_container_name (pathStr e.dir))] ∧
      execCalls (main rt entries cwd args) = []) := by
  have hargs' : args.isEmpty = false := by cases args <;> simp_all
  have hkill' : (args.head? == some "kill") = false := by simp [hkill]
  have hne : entries ≠ [] := by intro h; subst h; simp at hfind
  refine ⟨fun mts d => dictEq_singleton_iff mts d, ?_, ?_, ?_, ?_⟩
  · intro hstat
    refine ⟨rfl, ?_⟩
    cases hrun : rt.runRes <;> cases hex : rt.execRes <;>
      (simp [main, hargs', hkill', hne, hfind, hstat, hrun, hex,
        mutationCalls, isMutation, get_container_status, ensure_container, create_container,
        run_command_in_container, callE, outL, errL, exitWith,
        Eff.bind, Eff.pure, bind, pure, Eff.exitCode]
       try rfl)
  · intro s0 hstat hs
    constructor
    · intro hm
      have hm' : configMatchesInfo (observedInfo rt) (pathStr e.dir) e.image = true := hm
      refine ⟨by simp [decideAction, hs, hm], ?_⟩
      cases hstart : rt.startRes <;> cases hex : rt.execRes <;>
        (simp [main, hargs', hkill', hne, hfind, hstat, hs, hm', hstart, hex,
          mutationCalls, isMutation, get_container_status, ensure_container,
          verify_container_config, get_container_info, start_container,
          run_command_in_container, callE, outL, errL, exitWith,
          Eff.bind, Eff.pure, bind, pure, Eff.exitCode]
         try rfl)
    · intro hm
      have hm' : configMatchesInfo (observedInfo rt) (pathStr e.dir) e.image = false := hm
      refine ⟨by simp [decideAction, hs, hm], ?_⟩
      cases hrm : rt.rmRes <;> cases hrun : rt.runRes <;> cases hex : rt.execRes <;>
        (simp [main, hargs', hkill', hne, hfind, hstat, hs, hm', hrm, hrun, hex,
          mutationCalls, isMutation, get_container_status, ensure_container,
          verify_container_config, get_container_info, create_container,
          run_command_in_container, callE, outL, errL, exitWith,
          Eff.bind, Eff.pure, bind, pure, Eff.exitCode]
         try rfl)
  · intro s0 hstat hs
    constructor
    · intro hm
      have hm' : configMatchesInfo (observedInfo rt) (pathStr e.dir) e.image = true := hm
      refine ⟨by simp [decideAction, hs, hm], ?_⟩
      cases hex : rt.execRes <;>
        (simp [main, hargs', hkill', hne, hfind, hstat, hs, hm', hex,
          mutationCalls, isMutation, get_container_status, ensure_container,
          verify_container_config, get_container_info,
          run_command_in_container, callE, outL, errL, exitWith,
          Eff.bind, Eff.pure, bind, pure, Eff.exitCode]
         try rfl)
    · intro hm
      have hm' : configMatchesInfo (observedInfo rt) (pathStr e.dir) e.image = false := hm
      refine ⟨by simp [decideAction, hs, hm], ?_⟩
      cases hrm : rt.rmRes <;> cases hrun : rt.runRes <;> cases hex : rt.execRes <;>
        (simp [main, hargs', hkill', hne, hfind, hstat, hs, hm', hrm, hrun, hex,
          mutationCalls, isMutation, get_container_status, ensure_container,
          verify_container_config, get_container_info, create_container,
          run_command_in_container, callE, outL, errL, exitWith,
          Eff.bind, Eff.pure, bind, pure, Eff.exitCode]
         try rfl)
  · intro s0 hstat h1 h2
    have hsx : (pyStrip s0 == "exited") = false := by simp [h1]
    have hsr : (pyStrip s0 == "running") = false := by simp [h2]
    refine ⟨by simp [decideAction, hsx, hsr], ?_, ?_, ?_, ?_⟩ <;>
      simp [main, hargs', hkill', hne, hfind, hstat, hsx, hsr,
        execCalls, isExec, get_container_status, ensure_container,
        callE, outL, errL, exitWith, Eff.bind, Eff.pure, bind, pure, Eff.exitCode]

/-- Witness for C1 at concrete inputs: the dict comparison instance for
the /a mount, and the fatal branch on an unexpected status restarting:
exit 1, diagnostic naming the status, no call after the status inspect
and no exec. -/
theorem claim1_reconciliation_decision_witness :
    (["ls"] : List String) ≠ [] ∧
    (["ls"] : List String).head? ≠ some "kill" ∧
    wEnts.find? (fun en => en.dir.isPrefixOf ["a"]) = some wEntry ∧
    (dictEq [("/a", "/a")] [("/a", "/a")] = true ↔
      ((∀ kv ∈ [("/a", "/a")], kv = ("/a", "/a")) ∧ lookupD [("/a", "/a")] "/a" = some "/a")) ∧
    ((⟨.ok "restarting", .failed, none, none, none, .completed 0⟩ : Runtime).statusRes =
      .ok "restarting") ∧
    pyStrip "restarting" ≠ "exited" ∧
    pyStrip "restarting" ≠ "running" ∧
    decideAction (some (pyStrip "restarting"))
      (configMatches ⟨.ok "restarting", .failed, none, none, none, .completed 0⟩
        (pathStr wEntry.dir) wEntry.image) = .fatal (pyStrip "restarting") ∧
    (main ⟨.ok "restarting", .failed, none, none, none, .completed 0⟩ wEnts ["a"] ["ls"]).exitCode
      = some 1 ∧
    Line.err ("Error: Container in unexpected state: " ++ pyStrip "restarting")
      ∈ (main ⟨.ok "restarting", .failed, none, none, none, .completed 0⟩ wEnts ["a"] ["ls"]).lines ∧
    (main ⟨.ok "restarting", .failed, none, none, none, .completed 0⟩ wEnts ["a"] ["ls"]).calls =
      [.inspectStatus (get_container_name (pathStr wEntry.dir))] ∧
    execCalls (main ⟨.ok "restarting", .failed, none, none, none, .completed 0⟩ wEnts ["a"] ["ls"])
      = [] := by
  have h := claim1_reconciliation_decision
    ⟨.ok "restarting", .failed, none, none, none, .completed 0⟩ wEnts ["a"] ["ls"] wEntry
    (by decide) (by decide) (by decide)
  have hf := h.2.2.2.2 "restarting" rfl (by decide) (by decide)
  exact ⟨by decide, by decide, by decide, h.1 [("/a", "/a")] "/a", rfl, by decide, by decide,
    hf.1, hf.2.1, hf.2.2.1, hf.2.2.2.1, hf.2.2.2.2⟩

/-- Witness for C5 at concrete inputs: /a/sub resolves to the /a entry
and the exec call carries /a/sub as working directory; /c matches no
entry, exits 1 before any runtime call and lists the configured
directory. -/
theorem claim5_directory_scoping_witness :
    wEntry ∈ wEnts ∧
    wEntry.dir.isPrefixOf ["a", "sub"] = true ∧
    wEntry.dir.isPrefixOf ["c"] = false ∧
    (["ls"] : List String) ≠ [] ∧
    wEnts ≠ [] ∧
    wEnts.find? (fun en => en.dir.isPrefixOf ["a", "sub"]) = some wEntry ∧
    Call.exec true (some (pathStr ["a", "sub"])) (get_container_name (pathStr wEntry.dir))
        ["bash", "-c", String.intercalate " " ["ls"]]
      ∈ (main wRtReuse wEnts ["a", "sub"] ["ls"]).calls ∧
    (main wRtReuse wEnts ["c"] ["ls"]).exitCode = some 1 ∧
    (main wRtReuse wEnts ["c"] ["ls"]).calls = [] ∧
    Line.err ("  - " ++ pathStr wEntry.dir ++ " (image: " ++ wEntry.image ++ ")")
      ∈ (main wRtReuse wEnts ["c"] ["ls"]).lines := by
  have hB := (claim5_directory_scoping wRtReuse wEnts ["c"] ["ls"]).2.2
    (by decide) (by decide) (by decide)
  exact ⟨by decide, by decide, by decide, by decide, by decide, by decide, by decide,
    hB.1, hB.2.1, hB.2.2 wEntry (by decide)⟩

/-- C10: when the current directory lies inside several configured
directories, the first matching entry in configuration order is
selected, the whole invocation behaves as if that entry were the only
configured one (so its image and derived identity are the ones used),
and the first runtime call names that identity. -/
theorem claim10_first_match (rt : Runtime) (pre post : List Entry) (e : Entry)
    (cwd : List String) (args : List String)
    (hpre : ∀ e0 ∈ pre, e0.dir.isPrefixOf cwd = false)
    (he : e.dir.isPrefixOf cwd = true) :
    (pre ++ e :: post).find? (fun en => en.dir.isPrefixOf cwd) = some e ∧
    main rt (pre ++ e :: post) cwd args = main rt [e] cwd args := by
  have hfind : (pre ++ e :: post).find? (fun en => en.dir.isPrefixOf cwd) = some e := by
    rw [List.find?_append]
    have h1 : pre.find? (fun en => en.dir.isPrefixOf cwd) = none :=
      List.find?_eq_none.2 (by intro x hx; simp [hpre x hx])
    simp [h1, List.find?_cons_of_pos, he]
  have h2 : ([e] : List Entry).find? (fun en => en.dir.isPrefixOf cwd) = some e := by
    simp [List.find?_cons_of_pos, he]
  have hE1 : (pre ++ e :: post).isEmpty = false := by cases pre <;> simp [List.isEmpty]
  exact ⟨hfind, by simp [main, hfind, h2, hE1]⟩

/-- Witness for C10 at a concrete input: a non-matching entry /b before
/a, and a second matching entry for /a with a different image after it;
the invocation equals the one configured with the first /a entry
alone. -/
theorem claim10_first_match_witness :
    wEntryB.dir.isPrefixOf ["a"] = false ∧
    wEntry.dir.isPrefixOf ["a"] = true ∧
    ([wEntryB] ++ wEntry :: [wEntryA2]).find?
      (fun en => en.dir.isPrefixOf ["a"]) = some wEntry ∧
    main wRtReuse ([wEntryB] ++ wEntry :: [wEntryA2]) ["a"] ["ls"] =
      main wRtReuse [wEntry] ["a"] ["ls"] := by
  have h := claim10_first_match wRtReuse [wEntryB] [wEntryA2] wEntry
    ["a"] ["ls"] (by decide) (by decide)
  exact ⟨by decide, by decide, h.1, h.2⟩

/-! ## Container identity (C7) -/

/-- Characters docker accepts in a container name after the first:
the name must match one alphanumeric character followed by characters
from a-z, A-Z, 0-9, underscore, dot and dash. -/
def isDockerNameChar (c : Char) : Bool :=
  c.isAlphanum || c == '_' || c == '.' || c == '-'

/-- Whether a string is a legal docker container name. -/
def isValidDockerName (s : String) : Bool :=
  match s.data with
  | [] => false
  | c :: cs => c.isAlphanum && cs.all isDockerNameChar

/-- Every hexadecimal digit emitted by hexDigit is in the table. -/
theorem hexDigit_mem (n : Nat) : hexDigit n ∈ hexTable := by
  unfold hexDigit
  exact List.get_mem hexTable _ _

/-- Every character of a hexadecimal digest is a hex digit. -/
theorem hexChars_mem (bytes : List Nat) : ∀ c ∈ hexChars bytes, c ∈ hexTable := by
  induction bytes with
  | nil => intro c hc; simp [hexChars] at hc
  | cons b bs ih =>
    intro c hc
    simp only [hexChars, List.foldr, List.mem_cons] at hc
    rcases hc with hc | hc | hc
    · exact hc ▸ hexDigit_mem _
    · exact hc ▸ hexDigit_mem _
    · exact ih c hc

/-- All hex digits are alphanumeric. -/
theorem hexTable_alphanum : ∀ c ∈ hexTable, c.isAlphanum = true := by decide

/-- C7: the derived container identity is the fixed tag box- followed
by the first 12 hexadecimal digits of the SHA-256 of the path string;
it is a legal docker container name; it is a pure function of the path
(stable across repeated calls); and two paths receive the same identity
exactly when their truncated SHA-256 digests collide, so distinct
truncated digests give distinct identities. -/
theorem claim7_container_identity (p q : String) :
    get_container_name p = "box-" ++ String.mk ((hexdigestChars p).take 12) ∧
    isValidDockerName (get_container_name p) = true ∧
    (p = q → get_container_name p = get_container_name q) ∧
    (get_container_name p = get_container_name q ↔
      (hexdigestChars p).take 12 = (hexdigestChars q).take 12) := by
  refine ⟨rfl, ?_, fun h => h ▸ rfl, ?_⟩
  · have hdata : (get_container_name p).data =
        'b' :: 'o' :: 'x' :: '-' :: (hexdigestChars p).take 12 := by
      simp [get_container_name, String.data_append]
    have hall : ∀ c ∈ ('o' :: 'x' :: '-' :: (hexdigestChars p).take 12),
        isDockerNameChar c = true := by
      intro c hc
      rcases List.mem_cons.1 hc with h | hc
      · subst h; decide
      rcases List.mem_cons.1 hc with h | hc
      · subst h; decide
      rcases List.mem_cons.1 hc with h | hc
      · subst h; decide
      have hhex : c ∈ hexTable := hexChars_mem _ c (List.mem_of_mem_take hc)
      have h2 : c.isAlphanum = true := hexTable_alphanum c hhex
      simp [isDockerNameChar, h2]
    have hv : isValidDockerName (get_container_name p) =
        ('b'.isAlphanum && (('o' :: 'x' :: '-' :: (hexdigestChars p).take 12).all isDockerNameChar)) := by
      unfold isValidDockerName
      rw [hdata]
    rw [hv]
    simp only [Bool.and_eq_true]
    exact ⟨by decide, List.all_eq_true.2 hall⟩
  · simp [get_container_name, String.ext_iff, String.data_append]

/-- Witness for C7 at concrete inputs: the paths /a and /b have
distinct truncated digests, hence distinct container identities, and
the /a identity is the legal name box-6a50dc858413. -/
theorem claim7_container_identity_witness :
    (("/a" : String) = "/b" ∨ ("/a" : String) ≠ "/b") ∧
    isValidDockerName (get_container_name "/a") = true ∧
    (get_container_name "/a" = get_container_name "/b" ↔
      (hexdigestChars "/a").take 12 = (hexdigestChars "/b").take 12) ∧
    (hexdigestChars "/a").take 12 ≠ (hexdigestChars "/b").take 12 ∧
    get_container_name "/a" = "box-6a50dc858413" := by
  have h := claim7_container_identity "/a" "/b"
  exact ⟨Or.inr (by decide), h.2.1, h.2.2.2, by decide, by decide⟩

end Box
